import Mathlib

/-
  Verification of the connection-pool core of the H&P Expense Management
  System (src/backend/config/database.py).

  Shallow embedding conventions:
  * Time is measured in minutes as an `Int` (`datetime.now()` becomes an
    explicit `now` argument; `timedelta(minutes=60)` becomes the literal 60).
  * A `pyodbc` connection handle is abstracted by two booleans on the
    wrapper: `closed` (the handle was closed) and `probeOk` (whether the
    liveness probe `SELECT 1` would succeed on the underlying transport).
  * Python exceptions become explicit error values (`Except` / result sums).
  * The blocking `Queue.get(timeout=...)` is modelled sequentially: a take
    from a non-empty queue is immediate, a take from an empty queue consumes
    the whole timeout and raises `Empty`.  Each operation also reports the
    time it spent waiting.
  * Object identity (`conn in self._all_connections` compares by identity)
    is modelled by a numeric `id` stamped from a fresh-id counter.
-/

/-- Model of `ConnectionWrapper` (database.py lines 9-52): a raw pyodbc
handle plus `created_at` / `last_used` bookkeeping.  `closed` records that
`close()` was called; `probeOk` abstracts the health of the underlying
transport (whether `cursor(); execute("SELECT 1"); fetchone()` succeeds). -/
structure ConnectionWrapper where
  id : Nat
  createdAt : Int
  lastUsed : Int
  closed : Bool
  probeOk : Bool
deriving DecidableEq, Repr

/-- The idle TTL used by `_is_connection_valid`: `timedelta(minutes=60)`. -/
def idleTTLMinutes : Int := 60

/-- The liveness probe of `_is_connection_valid` (lines 158-162): obtaining a
cursor on a closed handle raises, and the `SELECT 1` round trip succeeds
exactly when the transport is healthy. -/
def probe_handle (c : ConnectionWrapper) : Bool := !c.closed && c.probeOk

/-- Instrumented model of `DatabasePool._is_connection_valid` (lines 150-165).
Returns `(valid?, probe performed?, the wrapper after the check)`.
The code first compares `datetime.now() - conn.last_used` against the 60
minute TTL (no I/O); only if within the TTL does it run the probe.  Running
the probe goes through `ConnectionWrapper.cursor`, which sets `last_used`
before touching the handle, hence the updated wrapper in the third slot. -/
def is_connection_valid_run (now : Int) (c : ConnectionWrapper) :
    Bool × Bool × ConnectionWrapper :=
  if now - c.lastUsed > idleTTLMinutes then (false, false, c)
  else (probe_handle c, true, { c with lastUsed := now })

/-- The boolean verdict of `_is_connection_valid`. -/
def is_connection_valid (now : Int) (c : ConnectionWrapper) : Bool :=
  (is_connection_valid_run now c).1

/-- The errors raised inside database.py:
`noDriver` = "No SQL Server ODBC drivers found ..." (line 70),
`connectionFailed` = "Connection failed: ..." (line 98),
`maxConnectionsReached` = "Maximum connections reached" (line 148). -/
inductive DBError where
  | noDriver
  | connectionFailed
  | maxConnectionsReached
deriving DecidableEq, Repr

/-- Model of the mutable state of `DatabasePool` (lines 54-65):
`available` is `self._pool` (a `Queue` with `maxsize = max_connections`,
front of the list = next item handed out), `allConnections` is
`self._all_connections` (list of wrapper identities), `createdCount` is
`self._created_connections` (a Python int, so it may go negative),
`nextId` stamps fresh wrapper identities. -/
structure PoolState where
  minConnections : Nat
  maxConnections : Nat
  available : List ConnectionWrapper
  allConnections : List Nat
  createdCount : Int
  nextId : Nat
deriving DecidableEq, Repr

/-- A wrapper as produced by `_create_connection` (lines 83-98): fresh handle,
`created_at = last_used = now`, healthy transport. -/
def freshConn (id : Nat) (now : Int) : ConnectionWrapper :=
  { id := id, createdAt := now, lastUsed := now, closed := false, probeOk := true }

/-- Model of `DatabasePool._get_or_create_connection` (lines 135-148): under
the lock, if `_created_connections < max_connections` attempt to create a
connection (`createOk` abstracts whether `pyodbc.connect` succeeds), append
it to `_all_connections` and increment the count; otherwise raise
"Maximum connections reached". -/
def getOrCreateConnection (s : PoolState) (now : Int) (createOk : Bool) :
    Except DBError ConnectionWrapper × PoolState :=
  if s.createdCount < (s.maxConnections : Int) then
    if createOk then
      (.ok (freshConn s.nextId now),
       { s with
          allConnections := s.allConnections ++ [s.nextId],
          createdCount := s.createdCount + 1,
          nextId := s.nextId + 1 })
    else (.error .connectionFailed, s)
  else (.error .maxConnectionsReached, s)

/-- Model of `DatabasePool.get_connection` (lines 113-133).  The third
component of the result is the time spent blocked on `self._pool.get`:
0 when the queue was non-empty, the full `timeout` when it was empty.
When the queue yields a stale/invalid wrapper the code removes it from
`_all_connections` (if present), unconditionally decrements the count, and
calls `_get_or_create_connection`; should that call raise, the raise happens
inside the outer `try`, so the bare `except:` catches it and calls
`_get_or_create_connection` once more (line 133). -/
def get_connection (s : PoolState) (now : Int) (timeout : Nat) (createOk : Bool) :
    Except DBError ConnectionWrapper × PoolState × Nat :=
  match s.available with
  | [] =>
      ((getOrCreateConnection s now createOk).1,
       (getOrCreateConnection s now createOk).2, timeout)
  | c :: rest =>
      if is_connection_valid now c then
        (.ok { c with lastUsed := now }, { s with available := rest }, 0)
      else
        match getOrCreateConnection
            { s with
                available := rest,
                allConnections := s.allConnections.erase c.id,
                createdCount := s.createdCount - 1 } now createOk with
        | (.ok c2, s3) => (.ok c2, s3, 0)
        | (.error _, s3) =>
            ((getOrCreateConnection s3 now createOk).1,
             (getOrCreateConnection s3 now createOk).2, 0)

/-- Model of `DatabasePool.return_connection` (lines 167-184).  The guard
`if conn and self._is_connection_valid(conn)` means an invalid connection is
simply ignored (no discard, no close, no bookkeeping).  A valid connection is
rolled back (updating `last_used`) and offered to the queue with
`put_nowait`; if the queue is full (`qsize = max_connections`) the raised
`Full` lands in the `except:` branch which removes the wrapper from
`_all_connections`, decrements the count and closes the handle.  The function
never raises.  The returned wrapper is the caller-visible object after the
call (the validity probe itself updates `last_used` via `cursor`). -/
def return_connection (s : PoolState) (now : Int) (c : ConnectionWrapper) :
    PoolState × ConnectionWrapper :=
  if is_connection_valid now c then
    if s.available.length < s.maxConnections then
      ({ s with available := s.available ++ [{ c with lastUsed := now }] },
       { c with lastUsed := now })
    else
      if s.allConnections.contains c.id then
        ({ s with
            allConnections := s.allConnections.erase c.id,
            createdCount := s.createdCount - 1 },
         { c with lastUsed := now, closed := true })
      else (s, { c with lastUsed := now, closed := true })
  else (s, (is_connection_valid_run now c).2.2)

/-- Model of `DatabasePool.close_all` (lines 186-205): drain and close the
queue, close everything in `_all_connections`, clear the registry and reset
the count to 0. -/
def close_all (s : PoolState) : PoolState :=
  { s with available := [], allConnections := [], createdCount := 0 }

/-- The snapshot returned by `DatabasePool.get_pool_stats` (lines 207-214).
`pool_utilization` holds the numeric content of the formatted string
`f"{(created / max) * 100:.1f}%"`: the percentage rounded to one decimal
place (Python's float division followed by `%.1f` formatting; `round` here
is round-to-nearest, which agrees with the formatting away from ties).
Note the Python code would raise `ZeroDivisionError` when
`max_connections = 0`; that degenerate configuration is excluded wherever
the field is reasoned about. -/
structure PoolStats where
  active_connections : Int
  available_connections : Nat
  max_connections : Nat
  pool_utilization : ℚ
deriving Repr

/-- Model of `DatabasePool.get_pool_stats` (lines 207-214). -/
def get_pool_stats (s : PoolState) : PoolStats :=
  { active_connections := s.createdCount,
    available_connections := s.available.length,
    max_connections := s.maxConnections,
    pool_utilization :=
      ((round ((s.createdCount : ℚ) / (s.maxConnections : ℚ) * 1000) : ℤ) : ℚ) / 10 }

/-- One externally triggerable pool operation: an acquire (with the caller's
timeout, the current time and whether `pyodbc.connect` would succeed), a
release, or a shutdown (`close_all`).  Stale-discard happens inside
`acquire` when the taken wrapper fails validation. -/
inductive PoolOp where
  | acquire (now : Int) (timeout : Nat) (createOk : Bool)
  | release (now : Int) (c : ConnectionWrapper)
  | shutdown
deriving Repr

/-- The state transition performed by one pool operation. -/
def step (s : PoolState) : PoolOp → PoolState
  | .acquire now t ok => (get_connection s now t ok).2.1
  | .release now c => (return_connection s now c).1
  | .shutdown => close_all s

/-- Run a sequence of pool operations. -/
def runPool (s : PoolState) (ops : List PoolOp) : PoolState := ops.foldl step s

/-- The empty pool state as set up by `DatabasePool.__init__` (lines 55-65)
just before `_initialize_pool` runs. -/
def mkPoolState (minC maxC : Nat) : PoolState :=
  { minConnections := minC, maxConnections := maxC, available := [],
    allConnections := [], createdCount := 0, nextId := 0 }

/-- Model of `DatabasePool._initialize_pool` (lines 100-111): `n` remaining
iterations of `for _ in range(min_connections)`, `i` the index of the next
creation attempt (`outcomes i` says whether the `i`-th `_create_connection`
succeeds).  On success the wrapper is put in the queue, appended to
`_all_connections` and the count incremented; on the first failure the loop
logs and `break`s, propagating nothing. -/
def initPoolGo (outcomes : Nat → Bool) (now : Int) :
    Nat → Nat → PoolState → PoolState
  | 0, _, s => s
  | n + 1, i, s =>
      if outcomes i then
        initPoolGo outcomes now n (i + 1)
          { s with
              available := s.available ++ [freshConn s.nextId now],
              allConnections := s.allConnections ++ [s.nextId],
              createdCount := s.createdCount + 1,
              nextId := s.nextId + 1 }
      else s

/-- Model of `DatabasePool.__init__` (lines 55-81): fail fast with
`noDriver` when no SQL Server ODBC driver is installed, otherwise build the
empty state and pre-create up to `min_connections` connections via
`_initialize_pool`.  (The `Queue.put` in the init loop can only block when
`min_connections > max_connections`; all reasoning below assumes
`min ≤ max`, as in the shipped configuration 5/20.) -/
def mkDatabasePool (minC maxC : Nat) (hasDriver : Bool) (outcomes : Nat → Bool)
    (now : Int) : Except DBError PoolState :=
  if hasDriver then .ok (initPoolGo outcomes now minC 0 (mkPoolState minC maxC))
  else .error .noDriver

/-- Model of `initialize_db_pool` (lines 219-226) acting on the module-global
`_db_pool` (`Option PoolState`).  Returns the pool handed to the caller, the
new global, and whether a new `DatabasePool` was constructed by this call. -/
def initDbPool (g : Option PoolState) (hasDriver : Bool) (outcomes : Nat → Bool)
    (now : Int) : Except DBError (PoolState × Option PoolState × Bool) :=
  match g with
  | some s => .ok (s, some s, false)
  | none =>
      match mkDatabasePool 5 20 hasDriver outcomes now with
      | .ok p => .ok (p, some p, true)
      | .error e => .error e

/-- Model of `get_db_connection` (lines 228-233): if the global pool is
`None` it is (re)built via `initialize_db_pool`, then `get_connection` runs
on it.  The boolean reports whether this call constructed a new pool. -/
def get_db_connection (g : Option PoolState) (hasDriver : Bool)
    (outcomes : Nat → Bool) (now : Int) (timeout : Nat) (createOk : Bool) :
    Except DBError ConnectionWrapper × Option PoolState × Bool :=
  match g with
  | some p =>
      ((get_connection p now timeout createOk).1,
       some (get_connection p now timeout createOk).2.1, false)
  | none =>
      match initDbPool none hasDriver outcomes now with
      | .ok (p, _, constructed) =>
          ((get_connection p now timeout createOk).1,
           some (get_connection p now timeout createOk).2.1, constructed)
      | .error e => (.error e, none, false)

/-- Model of `return_db_connection` (lines 235-239): a no-op when the global
pool is `None`. -/
def return_db_connection (g : Option PoolState) (now : Int)
    (c : ConnectionWrapper) : Option PoolState × ConnectionWrapper :=
  match g with
  | some s => (some (return_connection s now c).1, (return_connection s now c).2)
  | none => (none, c)

/-- Model of `close_db_pool` (lines 259-264): `close_all` on the pool if one
exists, then the global is reset to `None` in every case. -/
def close_db_pool (_ : Option PoolState) : Option PoolState := none

/-- Observable delegated calls made by the `get_db_context` context manager
itself (not by the pool internals): the defensive `conn.rollback()` in its
`except` block, and the `return_db_connection` in its `finally` block. -/
inductive CtxEvent where
  | rollbackEv (id : Nat)
  | releaseEv (id : Nat)
deriving DecidableEq, Repr

/-- Outcome of a `with get_db_context() as conn:` block: normal completion,
an acquisition error propagated from `get_db_connection`, or the body's own
exception propagated unchanged. -/
inductive CtxResult (ε β : Type) where
  | ok (b : β)
  | acquireErr (e : DBError)
  | bodyErr (e : ε)
deriving DecidableEq, Repr

/-- Model of `get_db_context` (lines 241-257).  The body is a function from
the acquired wrapper to `Except ε β` (raising = `.error`).  On a body
exception the manager calls `conn.rollback()` (which sets `last_used`,
errors swallowed), re-raises the original exception, and the `finally`
block returns the connection to the pool; so the rollback event precedes the
release event and the error is propagated unchanged.  The third component is
the ordered trace of the manager's own cleanup calls. -/
def get_db_context {ε β : Type} (g : Option PoolState) (hasDriver : Bool)
    (outcomes : Nat → Bool) (now : Int) (timeout : Nat) (createOk : Bool)
    (body : ConnectionWrapper → Except ε β) :
    CtxResult ε β × Option PoolState × List CtxEvent :=
  match get_db_connection g hasDriver outcomes now timeout createOk with
  | (.error e, g1, _) => (.acquireErr e, g1, [])
  | (.ok conn, g1, _) =>
      match body conn with
      | .ok b =>
          (.ok b, (return_db_connection g1 now conn).1, [.releaseEv conn.id])
      | .error e =>
          (.bodyErr e,
           (return_db_connection g1 now { conn with lastUsed := now }).1,
           [.rollbackEv conn.id, .releaseEv conn.id])

/-
  ## Helper lemmas
-/

/-- `_get_or_create_connection` never changes `maxConnections`. -/
lemma getOrCreateConnection_max (s : PoolState) (now : Int) (ok : Bool) :
    ((getOrCreateConnection s now ok).2).maxConnections = s.maxConnections := by
  unfold getOrCreateConnection
  split_ifs <;> rfl

/-- `_get_or_create_connection` preserves the cap invariant: the count grows
only under the strict check `createdCount < maxConnections`. -/
lemma getOrCreateConnection_count_le (s : PoolState) (now : Int) (ok : Bool)
    (h : s.createdCount ≤ (s.maxConnections : Int)) :
    ((getOrCreateConnection s now ok).2).createdCount ≤
      (((getOrCreateConnection s now ok).2).maxConnections : Int) := by
  unfold getOrCreateConnection
  split_ifs with h1 h2 <;> simp <;> omega

/-- An invalid wrapper comes back from the validity check with its `closed`
flag and identity untouched (only `last_used` may have been updated by the
probe). -/
lemma valid_run_preserves (now : Int) (c : ConnectionWrapper) :
    ((is_connection_valid_run now c).2.2).closed = c.closed ∧
    ((is_connection_valid_run now c).2.2).id = c.id := by
  unfold is_connection_valid_run
  split_ifs <;> simp

/-- A closed wrapper never passes `_is_connection_valid`: if it is past the
TTL it is stale, otherwise the probe's `cursor()` call raises. -/
lemma closed_not_valid (now : Int) (c : ConnectionWrapper) (h : c.closed = true) :
    is_connection_valid now c = false := by
  unfold is_connection_valid is_connection_valid_run probe_handle
  split_ifs <;> simp [h]

/-
  ## C2
-/

/-- C2: when `available` is empty and the pool is already at
`maxConnections`, `get_connection` blocks on the queue for the caller's full
timeout (third component = `timeout`), and only then fails with the
"Maximum connections reached" error (the spec's `PoolExhausted`), leaving
the pool state unchanged. -/
theorem c2_exhausted_only_after_full_timeout (s : PoolState) (now : Int)
    (timeout : Nat) (createOk : Bool) (hEmpty : s.available = [])
    (hMax : (s.maxConnections : Int) ≤ s.createdCount) :
    get_connection s now timeout createOk =
      (.error .maxConnectionsReached, s, timeout) := by
  have h1 : getOrCreateConnection s now createOk =
      (.error .maxConnectionsReached, s) := by
    unfold getOrCreateConnection
    rw [if_neg (not_lt.mpr hMax)]
  unfold get_connection
  rw [hEmpty, h1]

/-- A pool holding two live connections with cap 2 and an empty queue. -/
def c2pool : PoolState :=
  { minConnections := 2, maxConnections := 2, available := [],
    allConnections := [0, 1], createdCount := 2, nextId := 2 }

/-- Witness for C2 at a concrete exhausted pool and a 5 second timeout. -/
theorem c2_witness :
    c2pool.available = [] ∧ (c2pool.maxConnections : Int) ≤ c2pool.createdCount ∧
    get_connection c2pool 0 5 true = (.error .maxConnectionsReached, c2pool, 5) :=
  ⟨rfl, by decide,
   c2_exhausted_only_after_full_timeout c2pool 0 5 true rfl (by decide)⟩

/-
  ## C3
-/

/-- An in-TTL wrapper whose transport is dead: it fails the liveness probe. -/
def c3cexConn : ConnectionWrapper :=
  { id := 7, createdAt := 0, lastUsed := 0, closed := false, probeOk := false }

/-- A pool that counts `c3cexConn` among its live connections. -/
def c3cexPool : PoolState :=
  { minConnections := 1, maxConnections := 5, available := [],
    allConnections := [7], createdCount := 1, nextId := 8 }

/-- Counterexample to C3: releasing a connection that fails validation does
NOT discard it — `createdCount` stays 1 (not decremented), the id stays in
the registry, the handle is not closed, and the whole pool state is
unchanged. -/
theorem c3_counterexample :
    is_connection_valid 0 c3cexConn = false ∧
    (return_connection c3cexPool 0 c3cexConn).1 = c3cexPool ∧
    (return_connection c3cexPool 0 c3cexConn).1.createdCount = 1 ∧
    (return_connection c3cexPool 0 c3cexConn).1.allConnections = [7] ∧
    (return_connection c3cexPool 0 c3cexConn).2.closed = false := by
  decide

/-- C3 (amended): when `release` is handed a connection that fails
validation it does nothing at all — the pool state is unchanged, the
connection keeps its identity and is not closed (discard bookkeeping only
runs when a *valid* connection cannot be re-enqueued); `release` never
raises (it is a total function). -/
theorem c3_invalid_release_is_ignored (s : PoolState) (now : Int)
    (c : ConnectionWrapper) (h : is_connection_valid now c = false) :
    (return_connection s now c).1 = s ∧
    (return_connection s now c).2.closed = c.closed ∧
    (return_connection s now c).2.id = c.id := by
  have hp := valid_run_preserves now c
  unfold return_connection
  rw [h]
  simp [hp.1, hp.2]

/-- A dead-transport wrapper distinct from the counterexample's. -/
def c3wConn : ConnectionWrapper :=
  { id := 9, createdAt := 0, lastUsed := 0, closed := false, probeOk := false }

/-- A pool owning `c3wConn`. -/
def c3wPool : PoolState :=
  { minConnections := 2, maxConnections := 6, available := [],
    allConnections := [9], createdCount := 1, nextId := 10 }

/-- Witness for the amended C3 at a concrete invalid connection. -/
theorem c3_witness :
    is_connection_valid 0 c3wConn = false ∧
    ((return_connection c3wPool 0 c3wConn).1 = c3wPool ∧
     (return_connection c3wPool 0 c3wConn).2.closed = c3wConn.closed ∧
     (return_connection c3wPool 0 c3wConn).2.id = c3wConn.id) :=
  ⟨by decide, c3_invalid_release_is_ignored c3wPool 0 c3wConn (by decide)⟩

/-
  ## C5
-/

/-- A healthy wrapper used for the double-release counterexample. -/
def c5conn : ConnectionWrapper := freshConn 1 0

/-- A pool with room in the queue, owning `c5conn` (currently checked out). -/
def c5pool : PoolState :=
  { minConnections := 1, maxConnections := 4, available := [],
    allConnections := [1], createdCount := 1, nextId := 2 }

/-- Counterexample to C5: releasing the same (still valid) checkout twice is
NOT a no-op the second time — the second call enqueues the wrapper again, so
the available queue ends up holding the same connection twice and the pool
state differs from the state after the first call. -/
theorem c5_counterexample :
    ((return_connection
        ((return_connection c5pool 0 c5conn).1) 0
        ((return_connection c5pool 0 c5conn).2)).1.available.length = 2) ∧
    (return_connection
        ((return_connection c5pool 0 c5conn).1) 0
        ((return_connection c5pool 0 c5conn).2)).1 ≠
      (return_connection c5pool 0 c5conn).1 := by
  decide

/-- C5 (amended): a second `release` is a safe no-op on the pool state only
when the first one actually discarded the connection (its handle is closed):
a closed handle fails validation, so the call leaves the pool untouched and
the wrapper closed.  A second release of a still-valid connection instead
re-enqueues it, duplicating it in the available queue. -/
theorem c5_release_of_discarded_is_noop (s : PoolState) (now : Int)
    (c : ConnectionWrapper) (h : c.closed = true) :
    (return_connection s now c).1 = s ∧
    (return_connection s now c).2.closed = true ∧
    (return_connection s now c).2.id = c.id := by
  have hv : is_connection_valid now c = false := closed_not_valid now c h
  have hp := valid_run_preserves now c
  unfold return_connection
  rw [hv]
  simp [hp.1, hp.2, h]

/-- A wrapper whose handle was already closed by a discard. -/
def c5wConn : ConnectionWrapper :=
  { id := 3, createdAt := 0, lastUsed := 0, closed := true, probeOk := true }

/-- A pool unrelated to `c5wConn` (the connection was already discarded). -/
def c5wPool : PoolState :=
  { minConnections := 1, maxConnections := 4, available := [],
    allConnections := [], createdCount := 0, nextId := 4 }

/-- Witness for the amended C5 at a concrete discarded connection. -/
theorem c5_witness :
    c5wConn.closed = true ∧
    ((return_connection c5wPool 0 c5wConn).1 = c5wPool ∧
     (return_connection c5wPool 0 c5wConn).2.closed = true ∧
     (return_connection c5wPool 0 c5wConn).2.id = c5wConn.id) :=
  ⟨rfl, c5_release_of_discarded_is_noop c5wPool 0 c5wConn rfl⟩

/-
  ## C6
-/

/-- C6: `_is_connection_valid` checks the idle duration first — past the 60
minute TTL the connection is judged invalid with no probe performed
(second component `false`); within the TTL the probe runs (second component
`true`) and decides validity, so a failed probe also yields invalid. -/
theorem c6_idle_checked_before_probe (now : Int) (c : ConnectionWrapper) :
    (now - c.lastUsed > idleTTLMinutes →
      is_connection_valid_run now c = (false, false, c)) ∧
    (now - c.lastUsed ≤ idleTTLMinutes →
      (is_connection_valid_run now c).2.1 = true ∧
      (is_connection_valid_run now c).1 = probe_handle c) ∧
    (probe_handle c = false → is_connection_valid now c = false) := by
  refine ⟨?_, ?_, ?_⟩
  · intro h
    unfold is_connection_valid_run
    rw [if_pos h]
  · intro h
    unfold is_connection_valid_run
    rw [if_neg (not_lt.mpr h)]
    exact ⟨rfl, rfl⟩
  · intro h
    unfold is_connection_valid is_connection_valid_run
    split_ifs <;> simp [h]

/-- A wrapper last used at time 0 with a healthy transport. -/
def c6connA : ConnectionWrapper := freshConn 0 0

/-- A wrapper within the TTL whose probe fails. -/
def c6connB : ConnectionWrapper :=
  { id := 1, createdAt := 0, lastUsed := 0, closed := false, probeOk := false }

/-- Witness for C6: at `now = 100` minutes the first wrapper is stale and is
rejected without probing; the second wrapper is within the TTL at `now = 0`
and its failed probe makes it invalid. -/
theorem c6_witness :
    is_connection_valid_run 100 c6connA = (false, false, c6connA) ∧
    is_connection_valid 0 c6connB = false :=
  ⟨(c6_idle_checked_before_probe 100 c6connA).1 (by decide),
   (c6_idle_checked_before_probe 0 c6connB).2.2 (by decide)⟩

/-
  ## C8
-/

/-- C8: `initialize_db_pool` is idempotent — when the global pool already
exists, a second call returns that very instance, leaves the global
unchanged, and constructs no new pool (flag `false`). -/
theorem c8_init_idempotent (s : PoolState) (hasDriver : Bool)
    (outcomes : Nat → Bool) (now : Int) :
    initDbPool (some s) hasDriver outcomes now = .ok (s, some s, false) := rfl

/-
  ## C1
-/

/-- One pool operation preserves the cap invariant `createdCount ≤ max`. -/
lemma step_count_le (s : PoolState) (op : PoolOp)
    (h : s.createdCount ≤ (s.maxConnections : Int)) :
    (step s op).createdCount ≤ ((step s op).maxConnections : Int) := by
  cases op with
  | shutdown =>
      simp [step, close_all]
  | release now c =>
      simp only [step]
      unfold return_connection
      split_ifs <;> simp <;> omega
  | acquire now t ok =>
      simp only [step]
      unfold get_connection
      split
      · exact getOrCreateConnection_count_le s now ok h
      · rename_i c rest hav
        split_ifs with hv
        · simpa using h
        · have h2 :
              ({ s with
                  available := rest,
                  allConnections := s.allConnections.erase c.id,
                  createdCount := s.createdCount - 1 } : PoolState).createdCount ≤
                (({ s with
                    available := rest,
                    allConnections := s.allConnections.erase c.id,
                    createdCount := s.createdCount - 1 } : PoolState).maxConnections : Int) := by
            show s.createdCount - 1 ≤ (s.maxConnections : Int)
            omega
          split
          · rename_i c2 s3 hg
            have h3 := getOrCreateConnection_count_le _ now ok h2
            rw [hg] at h3
            simpa using h3
          · rename_i e s3 hg
            have h3 := getOrCreateConnection_count_le _ now ok h2
            rw [hg] at h3
            simpa using getOrCreateConnection_count_le s3 now ok h3

/-- C1: across every sequence of pool operations (acquire — including its
internal stale-discard — release, shutdown), the created-connection count
never exceeds `maxConnections`: growth happens only inside
`_get_or_create_connection` behind the strict check
`createdCount < maxConnections`, and every other mutation of the count is a
decrement or a reset. -/
theorem c1_created_count_never_exceeds_max (s : PoolState) (ops : List PoolOp)
    (h : s.createdCount ≤ (s.maxConnections : Int)) :
    (runPool s ops).createdCount ≤ ((runPool s ops).maxConnections : Int) := by
  induction ops generalizing s with
  | nil => simpa [runPool] using h
  | cons op ops ih =>
      have h1 := step_count_le s op h
      simpa [runPool, List.foldl_cons] using ih (step s op) h1

/-- A burst of operations against a 2/3 pool: repeated acquires past the
cap, a release, a stale wrapper released, and a shutdown. -/
def c1ops : List PoolOp :=
  [PoolOp.acquire 0 5 true, PoolOp.acquire 0 5 true, PoolOp.acquire 0 5 true,
   PoolOp.acquire 0 5 true, PoolOp.acquire 0 5 false,
   PoolOp.release 1 (freshConn 0 0), PoolOp.release 1 (freshConn 0 0),
   PoolOp.acquire 200 5 true, PoolOp.shutdown, PoolOp.acquire 200 5 true]

/-- Witness for C1 on a concrete operation sequence against a 2/3 pool. -/
theorem c1_witness :
    (mkPoolState 2 3).createdCount ≤ ((mkPoolState 2 3).maxConnections : Int) ∧
    (runPool (mkPoolState 2 3) c1ops).createdCount ≤
      ((runPool (mkPoolState 2 3) c1ops).maxConnections : Int) :=
  ⟨by decide, c1_created_count_never_exceeds_max (mkPoolState 2 3) c1ops (by decide)⟩

/-
  ## C4
-/

/-- A running global pool for the shutdown counterexample: the 5/20 pool as
built by `initialize_db_pool` when every creation succeeds at time 0. -/
def c4poolBefore : PoolState :=
  initPoolGo (fun _ => true) 0 5 0 (mkPoolState 5 20)

/-- Counterexample to C4: shut the global pool down, then acquire again —
the acquire does NOT fail with any `PoolClosed`-style error: it succeeds,
handing out a connection from a freshly constructed pool (third component
`true` records that `initialize_db_pool` built a new `DatabasePool`). -/
theorem c4_counterexample :
    close_db_pool (some c4poolBefore) = none ∧
    (get_db_connection (close_db_pool (some c4poolBefore)) true (fun _ => true)
        0 5 true).1 = .ok (freshConn 0 0) ∧
    (get_db_connection (close_db_pool (some c4poolBefore)) true (fun _ => true)
        0 5 true).2.2 = true :=
  ⟨rfl, rfl, rfl⟩

/-- C4 (amended): `close_db_pool` always resets the global to `None`, and a
subsequent `get_db_connection` never fails with a lifecycle error — there
is no `PoolClosed` in the code; instead the call lazily re-runs
`initialize_db_pool`, constructing a brand-new pool (provided an ODBC
driver is present), and proceeds to hand out connections from it. -/
theorem c4_acquire_after_shutdown_rebuilds_pool (g : Option PoolState)
    (outcomes : Nat → Bool) (now : Int) (timeout : Nat) (createOk : Bool) :
    close_db_pool g = none ∧
    (get_db_connection (close_db_pool g) true outcomes now timeout
        createOk).2.2 = true := by
  refine ⟨rfl, ?_⟩
  simp [get_db_connection, close_db_pool, initDbPool, mkDatabasePool]

/-
  ## C7
-/

/-- C7: when the body of the `get_db_context` scope raises, the manager
invokes `conn.rollback()` on the acquired connection and only afterwards
returns the connection to the pool (trace `[rollback, release]`), and the
body's original exception is propagated to the caller unchanged — never
suppressed. -/
theorem c7_rollback_precedes_release {ε β : Type} (g : Option PoolState)
    (hasDriver : Bool) (outcomes : Nat → Bool) (now : Int) (timeout : Nat)
    (createOk : Bool) (body : ConnectionWrapper → Except ε β)
    (conn : ConnectionWrapper) (g1 : Option PoolState) (flag : Bool) (e : ε)
    (hacq : get_db_connection g hasDriver outcomes now timeout createOk =
      (.ok conn, g1, flag))
    (hbody : body conn = .error e) :
    get_db_context g hasDriver outcomes now timeout createOk body =
      (.bodyErr e,
       (return_db_connection g1 now { conn with lastUsed := now }).1,
       [.rollbackEv conn.id, .releaseEv conn.id]) := by
  unfold get_db_context
  rw [hacq]
  simp only [hbody]

/-- A global pool with one ready connection, for the C7 witness. -/
def c7pool : PoolState :=
  { minConnections := 1, maxConnections := 4, available := [freshConn 0 0],
    allConnections := [0], createdCount := 1, nextId := 1 }

/-- The same pool after its one connection has been checked out. -/
def c7poolAfter : PoolState :=
  { minConnections := 1, maxConnections := 4, available := [],
    allConnections := [0], createdCount := 1, nextId := 1 }

/-- Witness for C7: a body that raises `42` leads to rollback-then-release
on connection 0 and the error propagating unchanged. -/
theorem c7_witness :
    get_db_context (some c7pool) true (fun _ => true) 0 5 true
        (fun _ => (Except.error 42 : Except Nat Nat)) =
      (.bodyErr 42,
       (return_db_connection (some c7poolAfter) 0
          { freshConn 0 0 with lastUsed := 0 }).1,
       [.rollbackEv 0, .releaseEv 0]) :=
  c7_rollback_precedes_release (some c7pool) true (fun _ => true) 0 5 true
    (fun _ => (Except.error 42 : Except Nat Nat)) (freshConn 0 0)
    (some c7poolAfter) false 42 rfl rfl

/-
  ## C9
-/

/-- A pool with 1 of 3 connections created, for the utilization
counterexample. -/
def c9cexPool : PoolState :=
  { minConnections := 1, maxConnections := 3, available := [],
    allConnections := [0], createdCount := 1, nextId := 1 }

/-- Counterexample to C9: with 1 of 3 connections, the code's utilization
field carries 33.3 (the percentage `(1/3)*100` rounded to one decimal for
the `"...%"` string); it equals neither `active/max = 1/3` nor `1/3` after
dividing the percentage back by 100 — the exact ratio is irrational to one
decimal place, so the claimed equality fails. -/
theorem c9_counterexample :
    (get_pool_stats c9cexPool).pool_utilization = 333 / 10 ∧
    (get_pool_stats c9cexPool).pool_utilization ≠
      (c9cexPool.createdCount : ℚ) / (c9cexPool.maxConnections : ℚ) ∧
    (get_pool_stats c9cexPool).pool_utilization / 100 ≠
      (c9cexPool.createdCount : ℚ) / (c9cexPool.maxConnections : ℚ) := by
  have hu : (get_pool_stats c9cexPool).pool_utilization = 333 / 10 := by
    have hr : round (((1 : ℤ) : ℚ) / ((3 : ℕ) : ℚ) * 1000) = 333 := by
      rw [round_eq, Int.floor_eq_iff]
      constructor <;> norm_num
    show ((round (((1 : ℤ) : ℚ) / ((3 : ℕ) : ℚ) * 1000) : ℤ) : ℚ) / 10 = 333 / 10
    rw [hr]
    norm_num
  refine ⟨hu, ?_, ?_⟩
  · rw [hu]
    show (333 : ℚ) / 10 ≠ ((1 : ℤ) : ℚ) / ((3 : ℕ) : ℚ)
    norm_num
  · rw [hu]
    show (333 : ℚ) / 10 / 100 ≠ ((1 : ℤ) : ℚ) / ((3 : ℕ) : ℚ)
    norm_num

/-- C9 (amended): `get_pool_stats` reports `active = createdCount`,
`available = qsize`, `max = maxConnections` exactly, while the
`pool_utilization` field carries `(active/max)·100` only up to the one
decimal place of the `%.1f` rendering: it is within 0.05 percentage points
of the exact percentage (and is a percentage, not the bare ratio). -/
theorem c9_stats_snapshot (s : PoolState) (h : s.maxConnections ≠ 0) :
    (get_pool_stats s).active_connections = s.createdCount ∧
    (get_pool_stats s).available_connections = s.available.length ∧
    (get_pool_stats s).max_connections = s.maxConnections ∧
    |(get_pool_stats s).pool_utilization -
        (s.createdCount : ℚ) / (s.maxConnections : ℚ) * 100| ≤ 1 / 20 := by
  refine ⟨rfl, rfl, rfl, ?_⟩
  have hb := abs_sub_round ((s.createdCount : ℚ) / (s.maxConnections : ℚ) * 1000)
  have hu : (get_pool_stats s).pool_utilization =
      ((round ((s.createdCount : ℚ) / (s.maxConnections : ℚ) * 1000) : ℤ) : ℚ) / 10 :=
    rfl
  have key : ((round ((s.createdCount : ℚ) / (s.maxConnections : ℚ) * 1000) : ℤ) : ℚ) / 10 -
      (s.createdCount : ℚ) / (s.maxConnections : ℚ) * 100 =
      -(((s.createdCount : ℚ) / (s.maxConnections : ℚ) * 1000 -
        ((round ((s.createdCount : ℚ) / (s.maxConnections : ℚ) * 1000) : ℤ) : ℚ)) / 10) := by
    ring
  rw [hu, key, abs_neg, abs_div]
  rw [show |(10 : ℚ)| = 10 from by norm_num]
  linarith

/-- A pool with 2 of 4 connections created and one sitting in the queue. -/
def c9wPool : PoolState :=
  { minConnections := 1, maxConnections := 4, available := [freshConn 0 0],
    allConnections := [0, 1], createdCount := 2, nextId := 2 }

/-- Witness for the amended C9 at a 2-of-4 pool (utilization exactly 50). -/
theorem c9_witness :
    c9wPool.maxConnections ≠ 0 ∧
    ((get_pool_stats c9wPool).active_connections = c9wPool.createdCount ∧
     (get_pool_stats c9wPool).available_connections = c9wPool.available.length ∧
     (get_pool_stats c9wPool).max_connections = c9wPool.maxConnections ∧
     |(get_pool_stats c9wPool).pool_utilization -
        (c9wPool.createdCount : ℚ) / (c9wPool.maxConnections : ℚ) * 100| ≤ 1 / 20) :=
  ⟨by decide, c9_stats_snapshot c9wPool (by decide)⟩

/-
  ## C10
-/

/-- Unfolding `_initialize_pool`'s loop up to its first failed creation:
with the first failure at attempt `i + m` (every attempt before it
succeeding), the loop performs exactly `m` successful iterations and then
breaks. -/
lemma initPoolGo_first_failure (outcomes : Nat → Bool) (now : Int) :
    ∀ (m n i : Nat) (s : PoolState), m < n → outcomes (i + m) = false →
      (∀ j, j < m → outcomes (i + j) = true) →
      (initPoolGo outcomes now n i s).createdCount = s.createdCount + (m : Int) ∧
      (initPoolGo outcomes now n i s).available.length = s.available.length + m ∧
      (initPoolGo outcomes now n i s).allConnections.length =
        s.allConnections.length + m := by
  intro m
  induction m with
  | zero =>
      intro n i s hn hfail _
      obtain ⟨n1, rfl⟩ : ∃ n1, n = n1 + 1 := ⟨n - 1, by omega⟩
      have h0 : outcomes i = false := by simpa using hfail
      simp [initPoolGo, h0]
  | succ m ih =>
      intro n i s hn hfail hpre
      obtain ⟨n1, rfl⟩ : ∃ n1, n = n1 + 1 := ⟨n - 1, by omega⟩
      have h0 : outcomes i = true := by simpa using hpre 0 (by omega)
      obtain ⟨ha, hb, hc⟩ := ih n1 (i + 1)
        { s with
            available := s.available ++ [freshConn s.nextId now],
            allConnections := s.allConnections ++ [s.nextId],
            createdCount := s.createdCount + 1,
            nextId := s.nextId + 1 }
        (by omega)
        (by rw [show i + 1 + m = i + (m + 1) from by omega]; exact hfail)
        (fun j hj => by
          rw [show i + 1 + j = i + (j + 1) from by omega]
          exact hpre (j + 1) (by omega))
      simp only [initPoolGo, h0, if_true, ha, hb, hc, List.length_append,
        List.length_cons, List.length_nil]
      refine ⟨by omega, by omega, by omega⟩

/-- C10: a failure in `_create_connection` during `_initialize_pool` is
swallowed (the constructor returns normally), initialization stops at that
first failure, and the pool starts with exactly the number of connections
created before it — `createdCount = k < minConnections`, possibly zero. -/
theorem c10_init_stops_at_first_failure (minC maxC k : Nat)
    (outcomes : Nat → Bool) (now : Int) (hminmax : minC ≤ maxC) (hk : k < minC)
    (hfail : outcomes k = false) (hpre : ∀ j, j < k → outcomes j = true) :
    mkDatabasePool minC maxC true outcomes now =
      .ok (initPoolGo outcomes now minC 0 (mkPoolState minC maxC)) ∧
    (initPoolGo outcomes now minC 0 (mkPoolState minC maxC)).createdCount =
      (k : Int) ∧
    (initPoolGo outcomes now minC 0 (mkPoolState minC maxC)).available.length = k ∧
    (initPoolGo outcomes now minC 0
        (mkPoolState minC maxC)).allConnections.length = k := by
  obtain ⟨h1, h2, h3⟩ := initPoolGo_first_failure outcomes now k minC 0
    (mkPoolState minC maxC) hk (by simpa using hfail)
    (fun j hj => by simpa using hpre j hj)
  refine ⟨rfl, ?_, ?_, ?_⟩
  · rw [h1]; simp [mkPoolState]
  · rw [h2]; simp [mkPoolState]
  · rw [h3]; simp [mkPoolState]

/-- Creation outcomes where only the first attempt succeeds. -/
def c10outcomes : Nat → Bool := fun j => j == 0

/-- Witness for C10: with `min = 3, max = 20` and the second creation
failing, the constructor returns normally with exactly one ready
connection. -/
theorem c10_witness :
    (3 ≤ 20 ∧ 1 < 3 ∧ c10outcomes 1 = false ∧
      (∀ j, j < 1 → c10outcomes j = true)) ∧
    (mkDatabasePool 3 20 true c10outcomes 0 =
        .ok (initPoolGo c10outcomes 0 3 0 (mkPoolState 3 20)) ∧
      (initPoolGo c10outcomes 0 3 0 (mkPoolState 3 20)).createdCount = (1 : Int) ∧
      (initPoolGo c10outcomes 0 3 0 (mkPoolState 3 20)).available.length = 1 ∧
      (initPoolGo c10outcomes 0 3 0 (mkPoolState 3 20)).allConnections.length = 1) :=
  ⟨by decide, c10_init_stops_at_first_failure 3 20 1 c10outcomes 0 (by decide)
    (by decide) (by decide) (by decide)⟩
